import Mathlib

/-!
Verification of the video-subtitles front ends (cli.py and gui.py)
against their natural-language specification.

The embedding models the two source files under src/ directly. External
collaborator modules of the same repository (video_subtitles.util,
video_subtitles.run, video_subtitles.settings, video_subtitles.say,
video_subtitles.thread_processor) are not present under src/; where a
claim depends on them they are modelled from the spec, each such
definition carrying a doc comment saying so. External effects (prints,
warnings, pipeline invocation) are recorded as explicit event traces so
that ordering claims ("before the pipeline is invoked") are statable.
-/

namespace VideoSubtitles

/-- Modelled from the spec: `video_subtitles.util.LANGUAGE_CODES` is not under
src/; the spec fixes the supported set as exactly en, es, fr, de, it, pt, ru, zh. -/
def LANGUAGE_CODES : List String :=
  ["en", "es", "fr", "de", "it", "pt", "ru", "zh"]

/-- Modelled from the spec: `video_subtitles.util.GraphicsInfo` is not under
src/; cli.py reads the fields idx, name and memory_gb of each card. -/
structure GraphicsInfo where
  idx : Nat
  name : String
  memory_gb : Nat
deriving DecidableEq, Repr

/-- Python str.strip: drop whitespace from both ends (structurally recursive
so that concrete instances evaluate). -/
def pyStrip (s : String) : String :=
  String.mk (((s.data.dropWhile Char.isWhitespace).reverse.dropWhile
    Char.isWhitespace).reverse)

def splitOnCharAux (sep : Char) : List Char → List Char → List String
  | [], acc => [String.mk acc.reverse]
  | c :: rest, acc =>
      if c = sep then String.mk acc.reverse :: splitOnCharAux sep rest []
      else splitOnCharAux sep rest (c :: acc)

/-- Python str.split with a one-character separator: the empty string yields
the single empty component, and a trailing separator yields a trailing empty
component (structurally recursive so that concrete instances evaluate). -/
def pySplitOn (sep : Char) (s : String) : List String :=
  splitOnCharAux sep s.data []

/-- Python str.join over a list of parts. -/
def joinWith (sep : String) : List String → String
  | [] => ""
  | [x] => x
  | x :: xs => x ++ sep ++ joinWith sep xs

/-- Validation loop of cli.parse_languages: raises on the first code not in
LANGUAGE_CODES, returns unit otherwise. -/
def checkLanguages : List String → Except String Unit
  | [] => Except.ok ()
  | l :: rest =>
      if l ∈ LANGUAGE_CODES then checkLanguages rest
      else Except.error ("Invalid language code: " ++ l)

/-- cli.parse_languages: split the argument on commas and check every
component against LANGUAGE_CODES; error (ArgumentTypeError) on any bad code. -/
def parse_languages (languages_str : String) : Except String (List String) :=
  match checkLanguages (pySplitOn ',' languages_str) with
  | Except.error e => Except.error e
  | Except.ok _ => Except.ok (pySplitOn ',' languages_str)

/-- Python exception kinds that can cross the boundaries modelled here. -/
inductive PyExc where
  | keyboardInterrupt
  | runtimeError (msg : String)
  | fileNotFoundError (path : String)
  | systemExit (code : Nat)
  | genericError (msg : String)
deriving DecidableEq, Repr

/-- Observable effects of a CLI invocation, in order of occurrence. -/
inductive Event where
  | printed (s : String)
  | warned (s : String)
  | promptedForKey
  | wroteKeyFile (s : String)
  | ranPipeline (file : String) (key : Option String) (langs : List String) (model : String)
deriving DecidableEq, Repr

def isRanPipeline : Event → Bool
  | Event.ranPipeline _ _ _ _ => true
  | _ => false

def isWarned : Event → Bool
  | Event.warned _ => true
  | _ => false

/-- The pipeline-invocation events of a trace. -/
def pipelineEvents (evs : List Event) : List Event :=
  evs.filter isRanPipeline

/-- The warning events of a trace. -/
def warnedEvents (evs : List Event) : List Event :=
  evs.filter isWarned

/-- The prefix of a trace before the pipeline is first invoked. -/
def beforeFirstRun (evs : List Event) : List Event :=
  evs.takeWhile (fun e => !(isRanPipeline e))

/-- How a call to main terminates: a normal return value, or an exception
escaping main (in which case the interpreter exits nonzero). -/
inductive MainResult where
  | exit (code : Nat)
  | uncaught (e : PyExc)
deriving DecidableEq, Repr

/-- Process exit code: returned value via SystemExit; an uncaught SystemExit
carries its own code; any other uncaught exception exits the interpreter
with status 1. -/
def exitCode : MainResult → Nat
  | MainResult.exit c => c
  | MainResult.uncaught (PyExc.systemExit c) => c
  | MainResult.uncaught _ => 1

/-- Environment of one CLI invocation: the aspects of the file system,
hardware probe and pipeline outcome that cli.py observes. -/
structure CliEnv where
  /-- os.path.exists on the input file. -/
  file_exists : Bool
  /-- Result of util.query_cuda_video_cards. -/
  cuda_cards : List GraphicsInfo
  /-- Whether util.ensure_transcribe_anything_installed succeeds. -/
  transcribe_installed : Bool
  /-- Contents of api_key.txt, none when the file does not exist. -/
  api_key_file : Option String
  /-- Response typed at the interactive key prompt. -/
  user_input : String
  /-- Outcome of run: none on success, some e when run raises e. -/
  run_outcome : Option PyExc
deriving DecidableEq, Repr

/-- Parsed command-line arguments as cli.parse_args delivers them to main. -/
structure Args where
  file : String
  languages : List String
  model : String
  api_key : Option String
deriving DecidableEq, Repr

def versionLine : String := "videosubtitles version"

def cardsHeader : String := "Found the following Nvidia/CUDA video cards:"

def freeWarning : String :=
  "Using free API key. Expect degraded results for large srt files"

/-- cli.ensure_dependencies: RuntimeError when no CUDA cards are found; the
check of util.ensure_transcribe_anything_installed is modelled from the spec
(preflight fails when the transcription tool is missing). -/
def ensure_dependencies (env : CliEnv) : Except PyExc (List GraphicsInfo) :=
  if env.cuda_cards = [] then
    Except.error (PyExc.runtimeError "No Nvidia/CUDA video cards found.")
  else if env.transcribe_installed = false then
    Except.error (PyExc.runtimeError "transcribe-anything is not installed")
  else Except.ok env.cuda_cards

/-- cli.validate_api_key: read api_key.txt (FileNotFoundError when absent);
when the stripped contents are empty, prompt, write the response, re-read. -/
def validate_api_key (env : CliEnv) : Except PyExc (String × List Event) :=
  match env.api_key_file with
  | none => Except.error (PyExc.fileNotFoundError "api_key.txt")
  | some contents =>
      let api_key := pyStrip contents
      if api_key = "" then
        Except.ok (pyStrip env.user_input,
          [Event.promptedForKey, Event.wroteKeyFile env.user_input])
      else Except.ok (api_key, [])

/-- The credential resolution of cli.main: a truthy --api-key value is used
directly, with the sentinel value free replaced by None; otherwise the key
comes from validate_api_key. -/
def resolveApiKey (flag : Option String) (env : CliEnv) :
    Except PyExc (Option String) × List Event :=
  match flag with
  | some k =>
      if k = "" then
        match validate_api_key env with
        | Except.error e => (Except.error e, [])
        | Except.ok (key, evs) => (Except.ok (some key), evs)
      else if k = "free" then (Except.ok none, [])
      else (Except.ok (some k), [])
  | none =>
      match validate_api_key env with
      | Except.error e => (Except.error e, [])
      | Except.ok (key, evs) => (Except.ok (some key), evs)

/-- Body of cli.main inside the try block: the returned value or the raised
exception, together with the events that occurred before termination. -/
def mainBody (args : Args) (env : CliEnv) : Except PyExc Nat × List Event :=
  if env.file_exists = false then
    (Except.ok 1, [Event.printed ("Error - file does not exist: " ++ args.file)])
  else
    match ensure_dependencies env with
    | Except.error e => (Except.error e, [Event.printed versionLine])
    | Except.ok cards =>
        let pre := [Event.printed versionLine, Event.printed cardsHeader] ++
          cards.map (fun c => Event.printed c.name)
        match resolveApiKey args.api_key env with
        | (Except.error e, evs) => (Except.error e, pre ++ evs)
        | (Except.ok key, evs) =>
            let wEvs := if key = some "free" then [Event.warned freeWarning] else []
            let rEv := [Event.ranPipeline args.file key args.languages args.model]
            match env.run_outcome with
            | some e => (Except.error e, pre ++ evs ++ wEvs ++ rEv)
            | none => (Except.ok 0, pre ++ evs ++ wEvs ++ rEv)

/-- cli.main: the try block with its single handler, which catches only
KeyboardInterrupt and converts it to return value 1; every other exception
escapes main. -/
def main (args : Args) (env : CliEnv) : MainResult × List Event :=
  match mainBody args env with
  | (Except.ok code, evs) => (MainResult.exit code, evs)
  | (Except.error PyExc.keyboardInterrupt, evs) =>
      (MainResult.exit 1, evs ++ [Event.printed "Exiting due to keyboard interrupt."])
  | (Except.error e, evs) => (MainResult.uncaught e, evs)

/-- A full CLI invocation from the raw --languages string: an invalid code
makes argparse reject the command line (SystemExit 2 from parser.error)
before the body of main runs; the explicit empty-list check of parse_args
behaves the same way. -/
def cliInvoke (file : String) (languages_str : String) (model : String)
    (api_key : Option String) (env : CliEnv) : MainResult × List Event :=
  match parse_languages languages_str with
  | Except.error _ => (MainResult.uncaught (PyExc.systemExit 2), [])
  | Except.ok langs =>
      if langs = [] then (MainResult.uncaught (PyExc.systemExit 2), [])
      else main { file := file, languages := langs, model := model, api_key := api_key } env

/-! ### GUI front end (gui.py) -/

/-- Modelled from the spec: `video_subtitles.util.parse_languages` is not under
src/; per the spec, validation accepts every request drawn from the fixed
supported set and rejects the whole request (ValueError) on any code outside
it. The request string is split on commas exactly as the CLI validator does. -/
def Util.parse_languages (languages_str : String) : Except String (List String) :=
  if ∀ l ∈ pySplitOn ',' languages_str, l ∈ LANGUAGE_CODES then
    Except.ok (pySplitOn ',' languages_str)
  else Except.error "Invalid language code"

/-- The four form fields of MainWidget read by save_settings and dropEvent. -/
structure FormState where
  deepl_input : String
  model_select : String
  output_text : String
  webvtt_select : String
deriving DecidableEq, Repr

/-- Modelled from the spec: the persistent settings store
(video_subtitles.settings) is not under src/; the spec treats it as an opaque
key/value record of the last-used credential, model, language set and format. -/
structure SettingsStore where
  deepl_key : String
  model : String
  languages : List String
  subtitle_format : String
deriving DecidableEq, Repr

/-- MainWidget.save_settings: strip each field, split the language text on
commas stripping each component, and persist all four values. -/
def save_settings (f : FormState) : SettingsStore :=
  { deepl_key := pyStrip f.deepl_input
    model := pyStrip f.model_select
    languages := (pySplitOn ',' (pyStrip f.output_text)).map (fun l => pyStrip l)
    subtitle_format := pyStrip f.webvtt_select }

/-- One invocation of the drop callback: the arguments dropEvent passes for
one dropped file. -/
structure Submission where
  file : String
  deepl_api_key : String
  languages : List String
  model : String
  convert_to_webvtt : Bool
deriving DecidableEq, Repr

/-- Result of one MainWidget.dropEvent: the settings written, the error
dialog shown (when language parsing fails) and the submissions made. -/
structure DropResult where
  saved : SettingsStore
  errorShown : Option String
  submissions : List Submission
deriving DecidableEq, Repr

/-- MainWidget.dropEvent: save the settings first, then read the form, parse
the language text (showing an error dialog and submitting nothing when it
fails), and invoke the drop callback once per dropped file. -/
def dropEvent (f : FormState) (files : List String) : DropResult :=
  let saved := save_settings f
  let deepl_api_key := pyStrip f.deepl_input
  let model := pyStrip f.model_select
  match Util.parse_languages f.output_text with
  | Except.error e => { saved := saved, errorShown := some e, submissions := [] }
  | Except.ok languages0 =>
      let languages := languages0.map (fun l => pyStrip l)
      let convert_to_webvtt := pyStrip f.webvtt_select = "WEBVTT"
      { saved := saved, errorShown := none,
        submissions := files.map (fun fl =>
          { file := fl, deepl_api_key := deepl_api_key, languages := languages,
            model := model, convert_to_webvtt := convert_to_webvtt }) }

/-- The argument record captured by the background thread created in
run_gui.callback for one job. -/
structure ThreadJob where
  videofile : String
  deepl_api_key : Option String
  languages : List String
  model : String
  convert_to_webvtt : Bool
deriving DecidableEq, Repr

/-- Observable effects on the GUI side, in order of occurrence. -/
inductive GuiEvent where
  | threadCreated (job : ThreadJob)
  | threadRegistered (job : ThreadJob)
  | chdirTo (dir : String)
  | ranPipeline (file : String) (key : Option String) (langs : List String)
      (model : String) (webvtt : Bool)
  | printedMsg (s : String)
  | said (s : String)
  | openedFolder (path : String)
deriving DecidableEq, Repr

def isGuiRanPipeline : GuiEvent → Bool
  | GuiEvent.ranPipeline _ _ _ _ _ => true
  | _ => false

def isSaid : GuiEvent → Bool
  | GuiEvent.said _ => true
  | _ => false

/-- The pipeline-invocation events of a GUI trace. -/
def guiPipelineEvents (evs : List GuiEvent) : List GuiEvent :=
  evs.filter isGuiRanPipeline

/-- The spoken-notification events of a GUI trace. -/
def saidEvents (evs : List GuiEvent) : List GuiEvent :=
  evs.filter isSaid

/-- The credential normalization at the top of run_gui.callback: a falsy
value (None or the empty string) becomes None. -/
def normalizeKey : Option String → Option String
  | none => none
  | some s => if s = "" then none else some s

def mkThreadJob (videofile : String) (key : Option String) (langs : List String)
    (model : String) (w : Bool) : ThreadJob :=
  { videofile := videofile, deepl_api_key := key, languages := langs,
    model := model, convert_to_webvtt := w }

/-- run_gui.callback: normalize the credential, create a daemon thread around
_generate_subtitles and register it. ThreadProcessor is not under src/ and is
modelled from the spec as a non-blocking registry of pending threads; the
callback returns the updated registry and its own event trace, which contains
no pipeline execution. -/
def callback (videofile : String) (deepl_api_key : Option String)
    (languages : List String) (model : String) (convert_to_webvtt : Bool)
    (proc : List ThreadJob) : List ThreadJob × List GuiEvent :=
  let job := mkThreadJob videofile (normalizeKey deepl_api_key) languages model convert_to_webvtt
  (proc ++ [job], [GuiEvent.threadCreated job, GuiEvent.threadRegistered job])

/-- os.path.basename for slash-separated paths. -/
def basename (p : String) : String :=
  (pySplitOn '/' p).getLastD ""

/-- os.path.dirname for slash-separated paths. -/
def dirname (p : String) : String :=
  joinWith "/" (pySplitOn '/' p).dropLast

/-- Environment one background job observes: the outcome of run, either the
output directory or the message of the raised exception. run is not under
src/ and is modelled from the spec as the pipeline orchestrator that either
returns an output location or fails. -/
structure JobEnv where
  run_result : Except String String
deriving Repr

/-- The spoken name derived in _generate_subtitles from the video file name:
the part before the first dot, with underscores replaced by spaces. -/
def voicename (base : String) : String :=
  String.mk (((pySplitOn '.' base).headD "").data.map
    (fun c => if c = '_' then ' ' else c))

/-- The body of _generate_subtitles: chdir to the video directory, rebase the
file name, invoke run inside a try block that catches every Exception; on
failure print the error and speak an error report; on success open the output
folder and speak a completion announcement. The function is total: no
exception of run escapes the job boundary. say and open_folder are external
collaborators recorded as events. -/
def generate_subtitles (job : ThreadJob) (env : JobEnv) : List GuiEvent :=
  let dir := dirname job.videofile
  let base := basename job.videofile
  GuiEvent.chdirTo dir ::
  GuiEvent.ranPipeline base job.deepl_api_key job.languages job.model
      job.convert_to_webvtt ::
  match env.run_result with
  | Except.error e => [GuiEvent.printedMsg e, GuiEvent.said ("Error: " ++ e)]
  | Except.ok out =>
      let fmt := if job.convert_to_webvtt then "WEBVTT" else "SRT"
      [GuiEvent.openedFolder out,
       GuiEvent.printedMsg ("Generating subtitles for " ++ base),
       GuiEvent.said ("Attention: " ++ voicename base ++
         " has completed subtitle generation in " ++ fmt ++ " format")]

/-! ### Two concurrent jobs sharing the process working directory

os.chdir mutates the working directory of the whole process, which all
job threads share. The interleaved execution of two jobs is modelled as a
scheduler word over a shared state: each job first performs its chdir, then
invokes run on the rebased file name, which the operating system resolves
against the working directory current at that moment. -/

structure TwoJobState where
  cwd : String
  pcA : Nat
  pcB : Nat
  resolvedA : Option String
  resolvedB : Option String
  termA : Option Bool
  termB : Option Bool
deriving DecidableEq, Repr

def joinPath (dir file : String) : String := dir ++ "/" ++ file

/-- One step of job A: its chdir when not yet performed, otherwise its run,
resolving the rebased file name against the shared working directory and
reaching its terminal state (success or caught failure) per its own run
outcome. -/
def stepJobA (fileA : String) (runOkA : Bool) (s : TwoJobState) : TwoJobState :=
  if s.pcA = 0 then { s with cwd := dirname fileA, pcA := 1 }
  else if s.pcA = 1 then
    { s with resolvedA := some (joinPath s.cwd (basename fileA)),
             termA := some runOkA, pcA := 2 }
  else s

/-- One step of job B, symmetric to stepJobA. -/
def stepJobB (fileB : String) (runOkB : Bool) (s : TwoJobState) : TwoJobState :=
  if s.pcB = 0 then { s with cwd := dirname fileB, pcB := 1 }
  else if s.pcB = 1 then
    { s with resolvedB := some (joinPath s.cwd (basename fileB)),
             termB := some runOkB, pcB := 2 }
  else s

/-- Interleaved execution of two jobs under a scheduler word: true schedules
a step of job A, false a step of job B. -/
def execJobs (sched : List Bool) (fileA fileB : String) (runOkA runOkB : Bool)
    (s : TwoJobState) : TwoJobState :=
  sched.foldl (fun st w => if w then stepJobA fileA runOkA st else stepJobB fileB runOkB st) s

def initState : TwoJobState :=
  { cwd := "/", pcA := 0, pcB := 0, resolvedA := none, resolvedB := none,
    termA := none, termB := none }

/-! ### Concrete inputs used by witnesses and counterexamples -/

def argsW : Args :=
  { file := "v.mp4", languages := ["en"], model := "large", api_key := some "k" }

def envW : CliEnv :=
  { file_exists := true, cuda_cards := [⟨0, "gpu", 8⟩], transcribe_installed := true,
    api_key_file := some "cached", user_input := "", run_outcome := none }

def formW : FormState :=
  { deepl_input := "key1", model_select := "large", output_text := "en,es",
    webvtt_select := "WEBVTT" }

def formBad : FormState :=
  { deepl_input := "key1", model_select := "large", output_text := "en,xx",
    webvtt_select := "SRT" }

def jobW : ThreadJob := mkThreadJob "d/a_video.mp4" none ["en"] "large" false

end VideoSubtitles

namespace VideoSubtitles

/-- C1: cli.main returns 0 on full success; returns 1 printing an error and
never invoking the pipeline when the input file does not exist; yields
process exit code 1 when the hardware/tooling preflight fails (the
RuntimeError escapes main uncaught); and returns 1 on KeyboardInterrupt. -/
theorem C1_main_exit_contract :
    (∀ args env key evs, env.file_exists = true → env.cuda_cards ≠ [] →
        env.transcribe_installed = true →
        resolveApiKey args.api_key env = (Except.ok key, evs) →
        env.run_outcome = none →
        (main args env).1 = MainResult.exit 0)
  ∧ (∀ args env, env.file_exists = false →
        (main args env).1 = MainResult.exit 1 ∧
        Event.printed ("Error - file does not exist: " ++ args.file) ∈ (main args env).2 ∧
        pipelineEvents (main args env).2 = [])
  ∧ (∀ args env, env.file_exists = true →
        (env.cuda_cards = [] ∨ env.transcribe_installed = false) →
        exitCode (main args env).1 = 1)
  ∧ (∀ args env key evs, env.file_exists = true → env.cuda_cards ≠ [] →
        env.transcribe_installed = true →
        resolveApiKey args.api_key env = (Except.ok key, evs) →
        env.run_outcome = some PyExc.keyboardInterrupt →
        (main args env).1 = MainResult.exit 1) := by
  refine ⟨?_, ?_, ?_, ?_⟩
  · intro args env key evs hfe hcards hinst hres hrun
    simp [main, mainBody, ensure_dependencies, hfe, hcards, hinst, hres, hrun]
  · intro args env hfe
    refine ⟨?_, ?_, ?_⟩ <;>
      simp [main, mainBody, hfe, pipelineEvents, isRanPipeline]
  · intro args env hfe hpre
    rcases hpre with h | h
    · simp [main, mainBody, ensure_dependencies, hfe, h, exitCode]
    · by_cases hc : env.cuda_cards = [] <;>
        simp [main, mainBody, ensure_dependencies, hfe, h, hc, exitCode]
  · intro args env key evs hfe hcards hinst hres hrun
    simp [main, mainBody, ensure_dependencies, hfe, hcards, hinst, hres, hrun]

/-- Witness for C1 at concrete inputs: success, missing file, missing CUDA
cards, and a KeyboardInterrupt during the pipeline. -/
theorem C1_main_exit_contract_witness :
    (main argsW envW).1 = MainResult.exit 0 ∧
    (main argsW { envW with file_exists := false }).1 = MainResult.exit 1 ∧
    exitCode (main argsW { envW with cuda_cards := [] }).1 = 1 ∧
    (main argsW { envW with run_outcome := some PyExc.keyboardInterrupt }).1
      = MainResult.exit 1 := by
  refine ⟨?_, ?_, ?_, ?_⟩
  · exact C1_main_exit_contract.1 argsW envW (some "k") [] rfl (by decide) rfl rfl rfl
  · exact (C1_main_exit_contract.2.1 argsW { envW with file_exists := false } rfl).1
  · exact C1_main_exit_contract.2.2.1 argsW { envW with cuda_cards := [] } rfl
      (Or.inl rfl)
  · exact C1_main_exit_contract.2.2.2 argsW
      { envW with run_outcome := some PyExc.keyboardInterrupt } (some "k") [] rfl
      (by decide) rfl rfl rfl

theorem validate_api_key_some (env : CliEnv) (c : String) (h : env.api_key_file = some c)
    (hne : pyStrip c ≠ "") : validate_api_key env = Except.ok (pyStrip c, []) := by
  unfold validate_api_key
  rw [h]
  simp [hne]

theorem resolveApiKey_cached (env : CliEnv) (c : String) (h : env.api_key_file = some c)
    (hne : pyStrip c ≠ "") : resolveApiKey none env = (Except.ok (some (pyStrip c)), []) := by
  unfold resolveApiKey
  rw [validate_api_key_some env c h hne]

/-- C9: with no --api-key flag and no cached key file, read_api_key raises
FileNotFoundError, which the handler of main (covering only
KeyboardInterrupt) does not catch: main terminates by an uncaught exception
and the pipeline is never invoked. -/
theorem C9_missing_key_file_uncaught :
    ∀ args env, env.file_exists = true → env.cuda_cards ≠ [] →
      env.transcribe_installed = true → args.api_key = none →
      env.api_key_file = none →
      (main args env).1 = MainResult.uncaught (PyExc.fileNotFoundError "api_key.txt") ∧
      pipelineEvents (main args env).2 = [] := by
  intro args env hfe hcards hinst hflag hfile
  have hres : resolveApiKey args.api_key env
      = (Except.error (PyExc.fileNotFoundError "api_key.txt"), []) := by
    rw [hflag]
    unfold resolveApiKey validate_api_key
    rw [hfile]
  constructor <;>
    simp [main, mainBody, ensure_dependencies, hfe, hcards, hinst, hres,
      pipelineEvents, List.filter_append, isRanPipeline]

/-- Witness for C9 at a concrete invocation with an absent cache file. -/
theorem C9_missing_key_file_uncaught_witness :
    (main { argsW with api_key := none } { envW with api_key_file := none }).1
        = MainResult.uncaught (PyExc.fileNotFoundError "api_key.txt") ∧
      pipelineEvents (main { argsW with api_key := none }
        { envW with api_key_file := none }).2 = [] :=
  C9_missing_key_file_uncaught { argsW with api_key := none }
    { envW with api_key_file := none } rfl (by decide) rfl rfl rfl

/-- C3 counterexample: invoking the CLI with --api-key free runs the pipeline
with no warning at all (and no error): the flag path normalizes the sentinel
to None before the warning check, so the advisory the claim requires is never
surfaced on that path. -/
theorem C3_counterexample :
    warnedEvents (main { argsW with api_key := some "free" } envW).2 = [] ∧
    (main { argsW with api_key := some "free" } envW).1 = MainResult.exit 0 ∧
    pipelineEvents (main { argsW with api_key := some "free" } envW).2
      = [Event.ranPipeline "v.mp4" none ["en"] "large"] := by
  refine ⟨rfl, rfl, rfl⟩

/-- C3 amended: the degraded-mode advisory is surfaced (before the pipeline
is invoked, and with no error) exactly on the cached-key path: when the CLI
runs without --api-key and the cache file contains free, the warning is
emitted and then the pipeline runs; when --api-key is given the sentinel
value free, the flag is normalized to None and the pipeline runs with no
warning and no error. -/
theorem C3_amended_free_warning :
    (∀ args env, env.file_exists = true → env.cuda_cards ≠ [] →
        env.transcribe_installed = true → args.api_key = none →
        env.api_key_file = some "free" → env.run_outcome = none →
        (main args env).2 =
          [Event.printed versionLine, Event.printed cardsHeader] ++
            env.cuda_cards.map (fun c => Event.printed c.name) ++
            [Event.warned freeWarning,
             Event.ranPipeline args.file (some "free") args.languages args.model] ∧
        (main args env).1 = MainResult.exit 0)
  ∧ (∀ args env, env.file_exists = true → env.cuda_cards ≠ [] →
        env.transcribe_installed = true → args.api_key = some "free" →
        env.run_outcome = none →
        warnedEvents (main args env).2 = [] ∧
        (main args env).1 = MainResult.exit 0) := by
  constructor
  · intro args env hfe hcards hinst hflag hfile hrun
    have hres : resolveApiKey args.api_key env = (Except.ok (some "free"), []) := by
      rw [hflag]
      exact resolveApiKey_cached env "free" hfile (by decide)
    constructor <;>
      simp [main, mainBody, ensure_dependencies, hfe, hcards, hinst, hres, hrun]
  · intro args env hfe hcards hinst hflag hrun
    have hres : resolveApiKey args.api_key env = (Except.ok none, []) := by
      rw [hflag]; rfl
    constructor <;>
      simp [main, mainBody, ensure_dependencies, hfe, hcards, hinst, hres, hrun,
        warnedEvents, List.filter_append, isWarned]

/-- Witness for the amended C3 at concrete invocations on both credential
paths. -/
theorem C3_amended_free_warning_witness :
    (main { argsW with api_key := none } { envW with api_key_file := some "free" }).2 =
        [Event.printed versionLine, Event.printed cardsHeader, Event.printed "gpu",
         Event.warned freeWarning,
         Event.ranPipeline "v.mp4" (some "free") ["en"] "large"] ∧
      warnedEvents (main { argsW with api_key := some "free" } envW).2 = [] := by
  constructor
  · have h := (C3_amended_free_warning.1 { argsW with api_key := none }
      { envW with api_key_file := some "free" } rfl (by decide) rfl rfl rfl rfl).1
    simpa [envW] using h
  · exact (C3_amended_free_warning.2 { argsW with api_key := some "free" } envW rfl
      (by decide) rfl rfl rfl).1

theorem checkLanguages_ok_iff (L : List String) :
    checkLanguages L = Except.ok () ↔ ∀ l ∈ L, l ∈ LANGUAGE_CODES := by
  induction L with
  | nil => simp [checkLanguages]
  | cons l rest ih =>
      by_cases h : l ∈ LANGUAGE_CODES <;> simp [checkLanguages, h, ih]

theorem parse_languages_ok (s : String)
    (h : ∀ l ∈ pySplitOn ',' s, l ∈ LANGUAGE_CODES) :
    parse_languages s = Except.ok (pySplitOn ',' s) := by
  unfold parse_languages
  rw [(checkLanguages_ok_iff (pySplitOn ',' s)).mpr h]

theorem parse_languages_err (s : String)
    (h : ¬ ∀ l ∈ pySplitOn ',' s, l ∈ LANGUAGE_CODES) :
    ∃ e, parse_languages s = Except.error e := by
  unfold parse_languages
  cases hc : checkLanguages (pySplitOn ',' s) with
  | error e => exact ⟨e, rfl⟩
  | ok u =>
      cases u
      exact absurd ((checkLanguages_ok_iff (pySplitOn ',' s)).mp hc) h

/-- C2: both front ends validate the requested languages against the fixed
supported set before anything else runs. The CLI validator accepts a request
string exactly when every comma-separated component is a supported code, and
an invalid request makes argparse reject the command line so the pipeline is
never invoked (the empty request string denotes the single empty component,
which is not a supported code, so it is likewise rejected). The GUI drop
handler submits one job per file when its language text is valid and submits
zero jobs, showing an error dialog, when it is not. -/
theorem C2_language_validation :
    (∀ s, (∀ l ∈ pySplitOn ',' s, l ∈ LANGUAGE_CODES) →
        parse_languages s = Except.ok (pySplitOn ',' s))
  ∧ (∀ s langs, parse_languages s = Except.ok langs →
        langs = pySplitOn ',' s ∧ ∀ l ∈ langs, l ∈ LANGUAGE_CODES)
  ∧ (∀ file s model key env,
        (¬ ∀ l ∈ pySplitOn ',' s, l ∈ LANGUAGE_CODES) →
        (cliInvoke file s model key env).1 = MainResult.uncaught (PyExc.systemExit 2) ∧
        pipelineEvents (cliInvoke file s model key env).2 = [])
  ∧ (∀ f files,
        ((¬ ∀ l ∈ pySplitOn ',' f.output_text, l ∈ LANGUAGE_CODES) →
          (dropEvent f files).submissions = [] ∧ (dropEvent f files).errorShown ≠ none) ∧
        ((∀ l ∈ pySplitOn ',' f.output_text, l ∈ LANGUAGE_CODES) →
          (dropEvent f files).errorShown = none ∧
          (dropEvent f files).submissions.length = files.length)) := by
  refine ⟨parse_languages_ok, ?_, ?_, ?_⟩
  · intro s langs h
    unfold parse_languages at h
    cases hc : checkLanguages (pySplitOn ',' s) with
    | error e => rw [hc] at h; cases h
    | ok u =>
        cases u
        rw [hc] at h
        cases h
        exact ⟨rfl, (checkLanguages_ok_iff _).mp hc⟩
  · intro file s model key env h
    obtain ⟨e, he⟩ := parse_languages_err s h
    constructor <;> simp [cliInvoke, he, pipelineEvents]
  · intro f files
    constructor
    · intro h
      have he : Util.parse_languages f.output_text
          = Except.error "Invalid language code" := by
        unfold Util.parse_languages
        rw [if_neg h]
      constructor <;> simp [dropEvent, he]
    · intro h
      have he : Util.parse_languages f.output_text
          = Except.ok (pySplitOn ',' f.output_text) := by
        unfold Util.parse_languages
        rw [if_pos h]
      constructor <;> simp [dropEvent, he]

/-- Witness for C2: the request en,es is accepted and en,xx is rejected on
both front ends. -/
theorem C2_language_validation_witness :
    parse_languages "en,es" = Except.ok ["en", "es"] ∧
    (cliInvoke "v.mp4" "en,xx" "large" none envW).1
      = MainResult.uncaught (PyExc.systemExit 2) ∧
    (dropEvent formBad ["a.mp4"]).submissions = [] ∧
    (dropEvent formW ["a.mp4", "b.mp4"]).submissions.length = 2 := by
  refine ⟨?_, ?_, ?_, ?_⟩
  · have h := C2_language_validation.1 "en,es" (by decide)
    simpa using h
  · exact (C2_language_validation.2.2.1 "v.mp4" "en,xx" "large" none envW (by decide)).1
  · exact ((C2_language_validation.2.2.2 formBad ["a.mp4"]).1 (by decide)).1
  · exact ((C2_language_validation.2.2.2 formW ["a.mp4", "b.mp4"]).2 (by decide)).2

/-- C5: a drop whose language text parses successfully submits exactly one
job per dropped file, and every submission of the drop carries the same
credential, language list, model and subtitle-format selection, all read
from the form at drop time. -/
theorem C5_one_submission_per_file :
    ∀ f files langs, Util.parse_languages f.output_text = Except.ok langs →
      (dropEvent f files).submissions = files.map (fun fl =>
        { file := fl, deepl_api_key := pyStrip f.deepl_input,
          languages := langs.map (fun l => pyStrip l),
          model := pyStrip f.model_select,
          convert_to_webvtt := (pyStrip f.webvtt_select = "WEBVTT") }) ∧
      (dropEvent f files).submissions.length = files.length := by
  intro f files langs h
  constructor <;> simp [dropEvent, h]

/-- Witness for C5 on a concrete drop of two files. -/
theorem C5_one_submission_per_file_witness :
    (dropEvent formW ["a.mp4", "b.mp4"]).submissions =
      [{ file := "a.mp4", deepl_api_key := "key1", languages := ["en", "es"],
         model := "large", convert_to_webvtt := true },
       { file := "b.mp4", deepl_api_key := "key1", languages := ["en", "es"],
         model := "large", convert_to_webvtt := true }] := by
  have h := (C5_one_submission_per_file formW ["a.mp4", "b.mp4"]
    ["en", "es"] rfl).1
  rw [h]
  decide

/-- C10: dropEvent persists all four form settings before validating the
language text, so the settings, including an invalid language list, are
saved even when validation fails and zero jobs are submitted. -/
theorem C10_settings_saved_before_validation :
    ∀ f files,
      (dropEvent f files).saved = save_settings f ∧
      (∀ e, Util.parse_languages f.output_text = Except.error e →
        (dropEvent f files).submissions = []) := by
  intro f files
  constructor
  · unfold dropEvent
    cases h : Util.parse_languages f.output_text <;> simp
  · intro e h
    simp [dropEvent, h]

/-- Witness for C10: a drop with the invalid language text en,xx saves the
settings, including the invalid list, while submitting nothing. -/
theorem C10_settings_saved_before_validation_witness :
    (dropEvent formBad ["a.mp4"]).saved =
      { deepl_key := "key1", model := "large", languages := ["en", "xx"],
        subtitle_format := "SRT" } ∧
    (dropEvent formBad ["a.mp4"]).submissions = [] := by
  refine ⟨?_, ?_⟩
  · rw [(C10_settings_saved_before_validation formBad ["a.mp4"]).1]
    decide
  · exact (C10_settings_saved_before_validation formBad ["a.mp4"]).2
      "Invalid language code" rfl

theorem stepJobA_pcA (f : String) (a : Bool) (s : TwoJobState) :
    (stepJobA f a s).pcA = if s.pcA = 0 then 1 else if s.pcA = 1 then 2 else s.pcA := by
  unfold stepJobA
  split_ifs <;> rfl

theorem stepJobA_termA (f : String) (a : Bool) (s : TwoJobState) :
    (stepJobA f a s).termA =
      if s.pcA = 0 then s.termA else if s.pcA = 1 then some a else s.termA := by
  unfold stepJobA
  split_ifs <;> rfl

theorem stepJobA_pcB (f : String) (a : Bool) (s : TwoJobState) :
    (stepJobA f a s).pcB = s.pcB := by
  unfold stepJobA
  split_ifs <;> rfl

theorem stepJobA_termB (f : String) (a : Bool) (s : TwoJobState) :
    (stepJobA f a s).termB = s.termB := by
  unfold stepJobA
  split_ifs <;> rfl

theorem stepJobB_pcB (f : String) (b : Bool) (s : TwoJobState) :
    (stepJobB f b s).pcB = if s.pcB = 0 then 1 else if s.pcB = 1 then 2 else s.pcB := by
  unfold stepJobB
  split_ifs <;> rfl

theorem stepJobB_termB (f : String) (b : Bool) (s : TwoJobState) :
    (stepJobB f b s).termB =
      if s.pcB = 0 then s.termB else if s.pcB = 1 then some b else s.termB := by
  unfold stepJobB
  split_ifs <;> rfl

theorem stepJobB_pcA (f : String) (b : Bool) (s : TwoJobState) :
    (stepJobB f b s).pcA = s.pcA := by
  unfold stepJobB
  split_ifs <;> rfl

theorem stepJobB_termA (f : String) (b : Bool) (s : TwoJobState) :
    (stepJobB f b s).termA = s.termA := by
  unfold stepJobB
  split_ifs <;> rfl

theorem execJobs_A_only (sched : List Bool) (fA fB : String) (a b b' : Bool) :
    ∀ s t : TwoJobState, s.pcA = t.pcA → s.termA = t.termA →
      (execJobs sched fA fB a b s).pcA = (execJobs sched fA fB a b' t).pcA ∧
      (execJobs sched fA fB a b s).termA = (execJobs sched fA fB a b' t).termA := by
  induction sched with
  | nil => exact fun s t h1 h2 => ⟨h1, h2⟩
  | cons w rest ih =>
      intro s t h1 h2
      cases w
      · exact ih (stepJobB fB b s) (stepJobB fB b' t)
          (by rw [stepJobB_pcA, stepJobB_pcA, h1])
          (by rw [stepJobB_termA, stepJobB_termA, h2])
      · exact ih (stepJobA fA a s) (stepJobA fA a t)
          (by rw [stepJobA_pcA, stepJobA_pcA, h1])
          (by rw [stepJobA_termA, stepJobA_termA, h1, h2])

theorem execJobs_B_only (sched : List Bool) (fA fB : String) (a a' b : Bool) :
    ∀ s t : TwoJobState, s.pcB = t.pcB → s.termB = t.termB →
      (execJobs sched fA fB a b s).pcB = (execJobs sched fA fB a' b t).pcB ∧
      (execJobs sched fA fB a b s).termB = (execJobs sched fA fB a' b t).termB := by
  induction sched with
  | nil => exact fun s t h1 h2 => ⟨h1, h2⟩
  | cons w rest ih =>
      intro s t h1 h2
      cases w
      · exact ih (stepJobB fB b s) (stepJobB fB b t)
          (by rw [stepJobB_pcB, stepJobB_pcB, h1])
          (by rw [stepJobB_termB, stepJobB_termB, h1, h2])
      · exact ih (stepJobA fA a s) (stepJobA fA a' t)
          (by rw [stepJobA_pcB, stepJobA_pcB, h1])
          (by rw [stepJobA_termB, stepJobA_termB, h2])

/-- C4: for every job run by the drag-and-drop front end, exactly one spoken
terminal notification is delivered: when run raises, the exception is caught
at the job boundary (generate_subtitles is a total function into traces) and
converted to a spoken error report; when run succeeds, the output folder is
opened and a spoken completion announcement follows. A sibling job running
concurrently keeps its own terminal state whatever this outcome is. -/
theorem C4_job_boundary_single_notification :
    ∀ job env,
      (saidEvents (generate_subtitles job env)).length = 1 ∧
      (∀ e, env.run_result = Except.error e →
        generate_subtitles job env =
          [GuiEvent.chdirTo (dirname job.videofile),
           GuiEvent.ranPipeline (basename job.videofile) job.deepl_api_key
             job.languages job.model job.convert_to_webvtt,
           GuiEvent.printedMsg e,
           GuiEvent.said ("Error: " ++ e)]) ∧
      (∀ out, env.run_result = Except.ok out →
        generate_subtitles job env =
          [GuiEvent.chdirTo (dirname job.videofile),
           GuiEvent.ranPipeline (basename job.videofile) job.deepl_api_key
             job.languages job.model job.convert_to_webvtt,
           GuiEvent.openedFolder out,
           GuiEvent.printedMsg ("Generating subtitles for " ++ basename job.videofile),
           GuiEvent.said ("Attention: " ++ voicename (basename job.videofile) ++
             " has completed subtitle generation in " ++
             (if job.convert_to_webvtt then "WEBVTT" else "SRT") ++ " format")]) ∧
      (∀ sched fA fB a a' b,
        (execJobs sched fA fB a b initState).termB
          = (execJobs sched fA fB a' b initState).termB) := by
  intro job env
  refine ⟨?_, ?_, ?_, ?_⟩
  · cases henv : env.run_result <;>
      simp [generate_subtitles, saidEvents, isSaid, henv, List.filter]
  · intro e he
    simp [generate_subtitles, he]
  · intro out ho
    simp [generate_subtitles, ho]
  · intro sched fA fB a a' b
    exact (execJobs_B_only sched fA fB a a' b initState initState rfl rfl).2

/-- Witness for C4 on a concrete job with a failing and a succeeding run. -/
theorem C4_job_boundary_single_notification_witness :
    (saidEvents (generate_subtitles jobW { run_result := Except.error "boom" })).length = 1 ∧
    generate_subtitles jobW { run_result := Except.error "boom" } =
      [GuiEvent.chdirTo "d",
       GuiEvent.ranPipeline "a_video.mp4" none ["en"] "large" false,
       GuiEvent.printedMsg "boom",
       GuiEvent.said "Error: boom"] ∧
    generate_subtitles jobW { run_result := Except.ok "d/a_video" } =
      [GuiEvent.chdirTo "d",
       GuiEvent.ranPipeline "a_video.mp4" none ["en"] "large" false,
       GuiEvent.openedFolder "d/a_video",
       GuiEvent.printedMsg "Generating subtitles for a_video.mp4",
       GuiEvent.said "Attention: a video has completed subtitle generation in SRT format"] := by
  refine ⟨?_, ?_, ?_⟩
  · exact (C4_job_boundary_single_notification jobW
      { run_result := Except.error "boom" }).1
  · have h := (C4_job_boundary_single_notification jobW
      { run_result := Except.error "boom" }).2.1 "boom" rfl
    rw [h]
    decide
  · have h := (C4_job_boundary_single_notification jobW
      { run_result := Except.ok "d/a_video" }).2.2.1 "d/a_video" rfl
    rw [h]
    decide

/-- C6 counterexample: two concurrent jobs on videos of the same name in
different directories, interleaved as A.chdir, B.chdir, A.run, B.run. The
process-wide chdir of job B lands between the chdir and the run of job A,
so job A resolves its rebased file name inside the directory of job B: its
effective input is the file of job B, not its own, and both jobs read and
write the same location. The claimed independence of working contexts is
false. -/
theorem C6_counterexample :
    (execJobs [true, false, true, false] "a/video.mp4" "b/video.mp4" true true
        initState).resolvedA = some "b/video.mp4" ∧
    (execJobs [true, false, true, false] "a/video.mp4" "b/video.mp4" true true
        initState).resolvedA
      = (execJobs [true, false, true, false] "a/video.mp4" "b/video.mp4" true true
        initState).resolvedB ∧
    ("b/video.mp4" : String) ≠ "a/video.mp4" := by
  exact ⟨rfl, rfl, by decide⟩

/-- C6 amended: concurrently running jobs are isolated in their terminal
states: the terminal state of each job depends only on its own run outcome,
for every interleaving. They are not isolated in their working context: the
working directory is process-global, so a scheduler interleaving exists in
which the chdir of one job changes the directory against which the other
job resolves its relative video path, making their effective inputs and
outputs collide. -/
theorem C6_amended_isolated_failure_shared_cwd :
    (∀ sched fA fB a b b',
        (execJobs sched fA fB a b initState).termA
          = (execJobs sched fA fB a b' initState).termA)
  ∧ (∀ sched fA fB a a' b,
        (execJobs sched fA fB a b initState).termB
          = (execJobs sched fA fB a' b initState).termB)
  ∧ ((execJobs [true, false, true, false] "a/video.mp4" "b/video.mp4" true true
        initState).resolvedA = some (joinPath (dirname "b/video.mp4")
          (basename "a/video.mp4"))) := by
  refine ⟨?_, ?_, rfl⟩
  · intro sched fA fB a b b'
    exact (execJobs_A_only sched fA fB a b b' initState initState rfl rfl).2
  · intro sched fA fB a a' b
    exact (execJobs_B_only sched fA fB a a' b initState initState rfl rfl).2

/-- C7: the drop callback never blocks on job completion: its entire effect
is to create one background thread and register it with the thread
processor; its event trace contains no pipeline execution, and it returns a
value independent of any pipeline outcome, while the pipeline invocation
happens only inside the registered thread body. -/
theorem C7_submit_nonblocking :
    ∀ v key langs model w proc,
      (callback v key langs model w proc).1
        = proc ++ [mkThreadJob v (normalizeKey key) langs model w] ∧
      (callback v key langs model w proc).2
        = [GuiEvent.threadCreated (mkThreadJob v (normalizeKey key) langs model w),
           GuiEvent.threadRegistered (mkThreadJob v (normalizeKey key) langs model w)] ∧
      guiPipelineEvents (callback v key langs model w proc).2 = [] ∧
      (∀ env, guiPipelineEvents
          (generate_subtitles (mkThreadJob v (normalizeKey key) langs model w) env)
        ≠ []) := by
  intro v key langs model w proc
  refine ⟨rfl, rfl, rfl, ?_⟩
  intro env
  cases henv : env.run_result <;>
    simp [generate_subtitles, guiPipelineEvents, isGuiRanPipeline, henv, List.filter]

/-- Witness for C7 on a concrete submission. -/
theorem C7_submit_nonblocking_witness :
    (callback "a.mp4" (some "k") ["en"] "large" true []).1
      = [mkThreadJob "a.mp4" (some "k") ["en"] "large" true] ∧
    guiPipelineEvents (callback "a.mp4" (some "k") ["en"] "large" true []).2 = [] ∧
    guiPipelineEvents (generate_subtitles (mkThreadJob "a.mp4" (some "k") ["en"] "large" true)
      { run_result := Except.ok "a" }) ≠ [] := by
  have h := C7_submit_nonblocking "a.mp4" (some "k") ["en"] "large" true []
  exact ⟨h.1, h.2.2.1, h.2.2.2 { run_result := Except.ok "a" }⟩

theorem mainBody_free_flag_key (args : Args) (env : CliEnv) (f : String)
    (k : Option String) (l : List String) (m : String)
    (hflag : args.api_key = some "free")
    (hmem : Event.ranPipeline f k l m ∈ (mainBody args env).2) : k = none := by
  have hres : resolveApiKey args.api_key env = (Except.ok none, []) := by
    rw [hflag]; rfl
  unfold mainBody at hmem
  rcases hfe : env.file_exists with _ | _ <;> rw [hfe] at hmem
  · simp at hmem
  · rcases hdep : ensure_dependencies env with e | cards <;> rw [hdep] at hmem
    · simp at hmem
    · rw [hres] at hmem
      rcases hrun : env.run_outcome with _ | e <;> rw [hrun] at hmem <;>
        · simp at hmem
          tauto

/-- C8: credential sentinels are normalized to absence before the pipeline
sees them: every pipeline invocation of a CLI run whose --api-key flag is
the sentinel free carries credential None, and the GUI callback turns a
falsy credential (None or the empty string) into None, so the job it
registers never carries the empty string. -/
theorem C8_sentinel_normalized :
    (∀ args env f k l m, args.api_key = some "free" →
        Event.ranPipeline f k l m ∈ (main args env).2 → k = none)
  ∧ (∀ v key langs model w proc,
        (callback v key langs model w proc).1
          = proc ++ [mkThreadJob v (normalizeKey key) langs model w])
  ∧ normalizeKey (some "") = none
  ∧ (∀ key, normalizeKey key ≠ some "") := by
  refine ⟨?_, fun v key langs model w proc => rfl, rfl, ?_⟩
  · intro args env f k l m hflag hmem
    apply mainBody_free_flag_key args env f k l m hflag
    unfold main at hmem
    rcases hb : mainBody args env with ⟨r, evs⟩
    rw [hb] at hmem
    show Event.ranPipeline f k l m ∈ evs
    rcases r with e | code
    case ok => exact hmem
    case error =>
      cases e with
      | keyboardInterrupt =>
          rcases List.mem_append.mp hmem with h | h
          · exact h
          · simp at h
      | runtimeError msg => exact hmem
      | fileNotFoundError p => exact hmem
      | systemExit c => exact hmem
      | genericError msg => exact hmem
  · intro key
    rcases key with _ | s
    · simp [normalizeKey]
    · by_cases h : s = "" <;> simp [normalizeKey, h]

/-- Witness for C8: the pipeline invocation recorded for a CLI run with
--api-key free carries credential None, and a GUI submission with an empty
credential string registers a job whose credential is None. -/
theorem C8_sentinel_normalized_witness :
    ((none : Option String) = none) ∧
    (callback "a.mp4" (some "") ["en"] "large" true []).1
      = [mkThreadJob "a.mp4" none ["en"] "large" true] := by
  constructor
  · exact C8_sentinel_normalized.1 { argsW with api_key := some "free" } envW
      "v.mp4" none ["en"] "large" rfl (by decide)
  · have h := C8_sentinel_normalized.2.1 "a.mp4" (some "") ["en"] "large" true []
    simpa [normalizeKey] using h

end VideoSubtitles
